import Mathlib

/-!
Shallow embedding of the ObscuraRT core (Vulkan context, compute pipeline,
display pipeline, frame grabber) for checking the natural-language
specification against the code.

Sources embedded:
- `VulkanContext` (vulkan_context.cpp): device suitability and selection,
  `cleanup`.
- `DisplayPipeline` (display_pipeline.cpp): swapchain format and extent
  negotiation in `createSwapchain`, the `presentFrame` call sequence.
- `ComputePipeline` (compute_pipeline.cpp): `processFrame`.
- `FrameGrabber` (frame_grabber.cpp): `grabFrame` test-pattern generation.

C++ exceptions are modelled with `Except`; the error names follow the
specification's taxonomy (the code throws `std::runtime_error` with a
message, the spec classifies them).
-/

/-- Error taxonomy of the specification (section 7); each constructor stands
for one classified failure mode of the C++ code. -/
inductive VkError
  | initializationError
  | resourceCreationError
  | resourceMissingError
  | timeoutError
  | synchronizationViolation
  | submitError
deriving DecidableEq, Repr

/-! ## VulkanContext: physical-device selection (vulkan_context.cpp) -/

/-- Vulkan physical device types relevant to `selectPhysicalDevice`. -/
inductive VkPhysicalDeviceType
  | discreteGpu
  | integratedGpu
  | virtualGpu
  | cpu
  | otherType
deriving DecidableEq, Repr

/-- One queue family as seen by `isDeviceSuitable`: whether its
`queueFlags` contain `VK_QUEUE_COMPUTE_BIT`. -/
structure QueueFamily where
  computeBit : Bool
deriving DecidableEq, Repr

/-- A physical device as consumed by `isDeviceSuitable` and
`selectPhysicalDevice`: its queue families, its device extension names,
and its `deviceType` property. -/
structure PhysicalDevice where
  queueFamilies : List QueueFamily
  extensionNames : List String
  deviceType : VkPhysicalDeviceType
deriving DecidableEq, Repr

/-- The loop over queue families in `VulkanContext::isDeviceSuitable`:
true when some family has the compute bit set. -/
def hasComputeQueue (d : PhysicalDevice) : Bool :=
  d.queueFamilies.any (fun q => q.computeBit)

/-- The loop over device extensions in `VulkanContext::isDeviceSuitable`:
true when `VK_KHR_SWAPCHAIN_EXTENSION_NAME` is among them. -/
def hasSwapchainExt (d : PhysicalDevice) : Bool :=
  d.extensionNames.any (fun e => e == "VK_KHR_swapchain")

/-- `VulkanContext::isDeviceSuitable` (vulkan_context.cpp): a device is
suitable when it has a compute-capable queue family and the swapchain
extension. -/
def isDeviceSuitable (d : PhysicalDevice) : Bool :=
  hasComputeQueue d && hasSwapchainExt d

/-- `VulkanContext::selectPhysicalDevice` (vulkan_context.cpp): throws when
no device is enumerated; otherwise a first pass returns the first suitable
discrete GPU, a second pass returns the first suitable device of any type,
and failing both it throws. Both throws are `InitializationError` in the
spec's taxonomy. -/
def selectPhysicalDevice (devices : List PhysicalDevice) :
    Except VkError PhysicalDevice :=
  if devices.isEmpty then
    Except.error VkError.initializationError
  else
    match devices.find? (fun d =>
        isDeviceSuitable d && d.deviceType == VkPhysicalDeviceType.discreteGpu) with
    | some d => Except.ok d
    | none =>
      match devices.find? (fun d => isDeviceSuitable d) with
      | some d => Except.ok d
      | none => Except.error VkError.initializationError

/-! ## DisplayPipeline: swapchain negotiation (display_pipeline.cpp) -/

/-- The `UINT32_MAX` sentinel used by `createSwapchain` for an undefined
current extent. -/
def UINT32_MAX : Nat := 4294967295

/-- `VkExtent2D`: a width/height pair. -/
structure VkExtent2D where
  width : Nat
  height : Nat
deriving DecidableEq, Repr

/-- The surface-capability fields read by `createSwapchain`. -/
structure VkSurfaceCapabilities where
  currentExtent : VkExtent2D
  minImageCount : Nat
  maxImageCount : Nat
deriving DecidableEq, Repr

/-- Extent negotiation in `DisplayPipeline::createSwapchain`
(display_pipeline.cpp lines 141-146): start from the capability-reported
current extent and override both fields with the caller's width/height
exactly when the reported width is the `UINT32_MAX` sentinel. -/
def chooseSwapExtent (capabilities : VkSurfaceCapabilities)
    (width height : Nat) : VkExtent2D :=
  if capabilities.currentExtent.width = UINT32_MAX then
    ⟨width, height⟩
  else
    capabilities.currentExtent

/-- Surface formats relevant to `createSwapchain`'s format search. -/
inductive VkFormat
  | r8g8b8a8Unorm
  | otherFormat (code : Nat)
deriving DecidableEq, Repr

/-- Color spaces relevant to `createSwapchain`'s format search. -/
inductive VkColorSpace
  | srgbNonlinear
  | otherSpace (code : Nat)
deriving DecidableEq, Repr

/-- A `VkSurfaceFormatKHR` entry. -/
structure VkSurfaceFormat where
  format : VkFormat
  colorSpace : VkColorSpace
deriving DecidableEq, Repr

/-- The condition of the format-search loop in `createSwapchain`. -/
def isPreferredFormat (f : VkSurfaceFormat) : Bool :=
  f.format == VkFormat.r8g8b8a8Unorm && f.colorSpace == VkColorSpace.srgbNonlinear

/-- Format selection in `DisplayPipeline::createSwapchain`
(display_pipeline.cpp lines 117-125): the code first reads `formats[0]`
unconditionally and then scans for the preferred format. `none` models the
out-of-bounds `formats[0]` access on an empty list — the code raises no
error there; on a nonempty list the result is the first preferred entry,
falling back to element 0. -/
def chooseSwapSurfaceFormat (formats : List VkSurfaceFormat) :
    Option VkSurfaceFormat :=
  match formats.head? with
  | none => none
  | some f0 =>
    some (match formats.find? isPreferredFormat with
          | some f => f
          | none => f0)

/-! ## DisplayPipeline: presentFrame (display_pipeline.cpp lines 322-421)

`presentFrame` is embedded as a trace of the host-side Vulkan calls it
performs, plus its result. Environment inputs that the host cannot control
(close request, submit result, whether the acquire wait ran long) are
fields of `PresentEnv`. -/

/-- The `UINT64_MAX` value, Vulkan's "wait indefinitely" timeout sentinel,
passed by `presentFrame` to both `vkWaitForFences` and
`vkAcquireNextImageKHR`. -/
def UINT64_MAX : Nat := 18446744073709551615

/-- Host-side actions of `DisplayPipeline::presentFrame`, in the order the
code performs them. `recordCommands` stands for the whole
begin/barrier/copy/barrier/end recording block. -/
inductive DisplayAction
  | pollEvents
  | waitFence
  | resetFence
  | acquireImage (timeout : Nat)
  | recordCommands
  | submitQueue
  | presentImage
deriving DecidableEq, Repr

/-- Environment of one `presentFrame` call: `closeRequested` is
`shouldClose()` (the window received a close request), `submitOk` is
whether `vkQueueSubmit` returns `VK_SUCCESS`, and `acquireTimedOut` is
whether the acquire wait exceeded any given bound (the code passes the
infinite timeout and never reads the acquire result, so this field is
unused by the embedding — exactly as in the source). -/
structure PresentEnv where
  closeRequested : Bool
  submitOk : Bool
  acquireTimedOut : Bool
deriving DecidableEq, Repr

/-- The sequence of host-side calls made by `DisplayPipeline::presentFrame`:
nothing when the window close was requested; otherwise poll events, wait on
the in-flight fence (infinite timeout), reset it, acquire the next image
with timeout `UINT64_MAX`, record the copy commands, submit (throwing on
failure, so the present call is reached only when the submit succeeds), and
present. -/
def presentFrameTrace (env : PresentEnv) : List DisplayAction :=
  if env.closeRequested then
    []
  else
    [DisplayAction.pollEvents, DisplayAction.waitFence, DisplayAction.resetFence,
     DisplayAction.acquireImage UINT64_MAX, DisplayAction.recordCommands,
     DisplayAction.submitQueue] ++
    (if env.submitOk then [DisplayAction.presentImage] else [])

/-- The result of `DisplayPipeline::presentFrame`: `false` immediately on a
close request, a thrown `runtime_error` ("Failed to submit queue",
`ResourceCreationError`-class submit failure) when `vkQueueSubmit` fails,
`true` otherwise. The acquire result is never consulted by the code. -/
def presentFrameResult (env : PresentEnv) : Except VkError Bool :=
  if env.closeRequested then
    Except.ok false
  else if env.submitOk then
    Except.ok true
  else
    Except.error VkError.submitError

/-- Fence automaton for the single-frame-in-flight invariant: `idle` means
the in-flight fence has not been observed signaled since the last
acquisition, `waited` means `vkWaitForFences` has returned (the fence was
observed signaled), `ready` means it has also been reset. -/
inductive FenceState
  | idle
  | waited
  | ready
deriving DecidableEq, Repr

/-- One automaton step: waiting observes the fence signaled; resetting is
legal after a wait; beginning an acquisition is legal only in `ready`
(fence observed signaled and reset) and consumes that observation; other
actions leave the state alone. `none` marks a violation. -/
def fenceStep : FenceState → DisplayAction → Option FenceState
  | _, DisplayAction.waitFence => some FenceState.waited
  | FenceState.waited, DisplayAction.resetFence => some FenceState.ready
  | _, DisplayAction.resetFence => none
  | FenceState.ready, DisplayAction.acquireImage _ => some FenceState.idle
  | _, DisplayAction.acquireImage _ => none
  | s, _ => some s

/-- Run the fence automaton over a trace; `false` when some action violates
the single-frame-in-flight discipline. -/
def checkFenceGuard (s : FenceState) : List DisplayAction → Bool
  | [] => true
  | a :: rest =>
    match fenceStep s a with
    | none => false
    | some t => checkFenceGuard t rest

/-- Concatenated trace of a whole run of the presentation path: one
`presentFrame` call per environment, in order. -/
def presentLoopTrace : List PresentEnv → List DisplayAction
  | [] => []
  | env :: rest => presentFrameTrace env ++ presentLoopTrace rest

/-! ## ComputePipeline: processFrame (compute_pipeline.cpp lines 195-198) -/

/-- An image as a total color map over coordinates. -/
structure Image where
  pix : Nat → Nat → Nat

/-- The observable state of a `ComputePipeline` object for dispatch-time
checks: whether `init` has completed. -/
structure ComputeState where
  initialized : Bool
deriving DecidableEq, Repr

/-- `ComputePipeline::processFrame` (compute_pipeline.cpp lines 195-198).
The body of the function is empty ("MVP stub: this will be fully
implemented"): it checks nothing, records nothing, dispatches nothing and
throws nothing, so the pipeline state and the output image are returned
unchanged and the error channel is empty. -/
def processFrame (st : ComputeState) (input output : Image)
    (blockSize : Nat) : ComputeState × Image × Option VkError :=
  (st, output, none)

/-- Modelled from the spec: the pixelation kernel's documented effect
(`shaders/pixelation.comp`, not under src/): output pixel `(x, y)` is the
input color sampled at `(floor(x/blockSize)*blockSize,
floor(y/blockSize)*blockSize)`. -/
def pixelateSpec (input : Image) (blockSize x y : Nat) : Nat :=
  input.pix (x / blockSize * blockSize) (y / blockSize * blockSize)

/-- A constant-color image, for concrete evaluations. -/
def constImage (c : Nat) : Image := ⟨fun _ _ => c⟩

/-! ## VulkanContext: cleanup (vulkan_context.cpp lines 36-54) -/

/-- The handle fields of `VulkanContext` read by `cleanup`, each modelled
as "is this handle non-null". `destroyFuncAvailable` models whether
`vkGetInstanceProcAddr` finds `vkDestroyDebugUtilsMessengerEXT`. -/
structure VulkanContextState where
  instanceH : Bool
  deviceH : Bool
  commandPoolH : Bool
  debugMessengerH : Bool
  destroyFuncAvailable : Bool
deriving DecidableEq, Repr

/-- The destroy calls `VulkanContext::cleanup` can make. -/
inductive CleanupAction
  | destroyCommandPool
  | destroyDevice
  | destroyDebugMessenger
  | destroyInstance
deriving DecidableEq, Repr

/-- The destroy calls performed by `VulkanContext::cleanup`
(vulkan_context.cpp lines 36-54): under a non-null device, the command
pool (if non-null) then the device; under a non-null instance, the debug
messenger (if non-null and the destroy function resolves) then the
instance. -/
def cleanupActions (s : VulkanContextState) : List CleanupAction :=
  (if s.deviceH then
     (if s.commandPoolH then [CleanupAction.destroyCommandPool] else []) ++
     [CleanupAction.destroyDevice]
   else []) ++
  (if s.instanceH then
     (if s.debugMessengerH && s.destroyFuncAvailable then
        [CleanupAction.destroyDebugMessenger]
      else []) ++
     [CleanupAction.destroyInstance]
   else [])

/-- The field state after `VulkanContext::cleanup`: the function never
assigns to any handle field (no `VK_NULL_HANDLE` resets), so the state is
returned unchanged. -/
def cleanupState (s : VulkanContextState) : VulkanContextState := s

/-! ## FrameGrabber: grabFrame (frame_grabber.cpp) -/

/-- The `Frame` struct (frame_grabber.h): width, height, stride in bytes
per row, and the byte buffer. -/
structure Frame where
  width : Nat
  height : Nat
  stride : Nat
  data : List Nat
deriving DecidableEq, Repr

/-- A `FrameGrabber` object: configured dimensions and frame counter. -/
structure FrameGrabber where
  width : Nat
  height : Nat
  frameCount : Nat
deriving DecidableEq, Repr

/-- One past the largest `uint32_t` value: every 32-bit arithmetic step of
the C++ code wraps modulo this. -/
def U32 : Nat := 4294967296

/-- The four bytes written for pixel `(x, y)` by the inner loop of
`FrameGrabber::grabFrame`, computed as the C++ does in wrapping 32-bit
unsigned arithmetic: `r = (x*255)/width`, `g = (y*255)/height`,
`b = ((x+y)*255)/(width+height)` with each product, the sum `x+y` and the
divisor `width+height` reduced `% U32`, and `a = 255`; each store truncates
to `uint8_t` (`% 256`). -/
def pixelBytes (w h x y : Nat) : List Nat :=
  [x * 255 % U32 / w % 256,
   y * 255 % U32 / h % 256,
   (x + y) % U32 * 255 % U32 / ((w + h) % U32) % 256,
   255]

/-- The inner (`x`) loop of `grabFrame`, generating `rem` pixels of row `y`
starting at column `x0`. -/
def rowBytes (w h y : Nat) : Nat → Nat → List Nat
  | 0, _ => []
  | rem + 1, x0 => pixelBytes w h x0 y ++ rowBytes w h y rem (x0 + 1)

/-- The outer (`y`) loop of `grabFrame`, generating `rem` rows starting at
row `y0`. -/
def frameBytes (w h : Nat) : Nat → Nat → List Nat
  | 0, _ => []
  | rem + 1, y0 => rowBytes w h y0 w 0 ++ frameBytes w h rem (y0 + 1)

/-- The output frame built by `FrameGrabber::grabFrame`: width and height
from the grabber, stride `width_ * 4` computed in wrapping 32-bit
arithmetic, and as data the byte stream the nested loops write (`height`
rows of `width` pixels, 4 bytes each). -/
def grabbedFrame (g : FrameGrabber) : Frame :=
  ⟨g.width, g.height, g.width * 4 % U32,
   frameBytes g.width g.height g.height 0⟩

/-- Undefined behavior of `FrameGrabber::grabFrame`: the buffer is resized
to `(width_ * height_) * 4` bytes with the pixel count computed in wrapping
32-bit arithmetic, while the loops write the full `height * width * 4`
bytes — a heap overflow whenever `width * height` wraps; and as soon as one
pixel is generated, the `b` channel divides by `width_ + height_`, a
division by zero when that 32-bit sum wraps to 0. -/
def grabFrameUB (g : FrameGrabber) : Bool :=
  decide (U32 ≤ g.width * g.height) ||
  (decide (0 < g.width) && decide (0 < g.height) &&
   decide ((g.width + g.height) % U32 = 0))

/-- `FrameGrabber::grabFrame` (frame_grabber.cpp): sets the output frame's
width, height and stride, fills the data buffer with the gradient test
pattern row by row, increments the (32-bit) frame counter, and returns
`true` unconditionally. `none` models the undefined executions
(`grabFrameUB`); on every defined execution the call returns. -/
def grabFrame (g : FrameGrabber) : Option (Bool × Frame × FrameGrabber) :=
  if grabFrameUB g then
    none
  else
    some (true, grabbedFrame g,
      ⟨g.width, g.height, (g.frameCount + 1) % U32⟩)

example : chooseSwapExtent ⟨⟨UINT32_MAX, 300⟩, 2, 3⟩ 640 480 = ⟨640, 480⟩ := by decide
example : chooseSwapExtent ⟨⟨800, 600⟩, 2, 3⟩ 640 480 = ⟨800, 600⟩ := by decide
example : chooseSwapSurfaceFormat [] = none := by decide
example :
    selectPhysicalDevice
      [⟨[⟨true⟩], ["VK_KHR_swapchain"], VkPhysicalDeviceType.integratedGpu⟩,
       ⟨[⟨true⟩], ["VK_KHR_swapchain"], VkPhysicalDeviceType.discreteGpu⟩] =
    Except.ok ⟨[⟨true⟩], ["VK_KHR_swapchain"], VkPhysicalDeviceType.discreteGpu⟩ := by
  rfl

/-! ## Theorems -/

/-- C4: among the enumerated physical devices, if any suitable device
(compute-capable queue family and swapchain extension) is a discrete GPU
then a discrete suitable device is selected; otherwise, if any suitable
device exists, the first suitable device is selected; if no device is
suitable, selection fails with `InitializationError`. -/
theorem selectPhysicalDevice_spec (devices : List PhysicalDevice) :
    ((∃ d, d ∈ devices ∧ isDeviceSuitable d = true ∧
        d.deviceType = VkPhysicalDeviceType.discreteGpu) →
      ∃ d, selectPhysicalDevice devices = Except.ok d ∧ isDeviceSuitable d = true ∧
        d.deviceType = VkPhysicalDeviceType.discreteGpu)
  ∧ ((∀ d, d ∈ devices → ¬(isDeviceSuitable d = true ∧
        d.deviceType = VkPhysicalDeviceType.discreteGpu)) →
      ∀ d, devices.find? (fun d => isDeviceSuitable d) = some d →
        selectPhysicalDevice devices = Except.ok d)
  ∧ ((∀ d, d ∈ devices → isDeviceSuitable d = false) →
      selectPhysicalDevice devices = Except.error VkError.initializationError) := by
  refine ⟨?_, ?_, ?_⟩
  · rintro ⟨d, hd, hsuit, htype⟩
    have hfind : (devices.find? (fun d =>
        isDeviceSuitable d && d.deviceType == VkPhysicalDeviceType.discreteGpu)).isSome := by
      rw [List.find?_isSome]
      exact ⟨d, hd, by simp [hsuit, htype]⟩
    obtain ⟨d', hd'⟩ := Option.isSome_iff_exists.mp hfind
    have hp := List.find?_some hd'
    simp only [Bool.and_eq_true, beq_iff_eq] at hp
    have hne : devices.isEmpty = false := by
      cases devices with
      | nil => cases hd
      | cons a l => rfl
    refine ⟨d', ?_, hp.1, hp.2⟩
    simp [selectPhysicalDevice, hne, hd']
  · intro hnodisc d hd
    have hnone : devices.find? (fun d =>
        isDeviceSuitable d && d.deviceType == VkPhysicalDeviceType.discreteGpu) = none := by
      rw [List.find?_eq_none]
      intro x hx
      simp only [Bool.and_eq_true, beq_iff_eq]
      exact fun hc => hnodisc x hx hc
    have hne : devices.isEmpty = false := by
      cases devices with
      | nil => cases hd
      | cons a l => rfl
    simp [selectPhysicalDevice, hne, hnone, hd]
  · intro hnone
    have h1 : devices.find? (fun d =>
        isDeviceSuitable d && d.deviceType == VkPhysicalDeviceType.discreteGpu) = none := by
      rw [List.find?_eq_none]
      intro x hx
      simp [hnone x hx]
    have h2 : devices.find? (fun d => isDeviceSuitable d) = none := by
      rw [List.find?_eq_none]
      intro x hx
      simp [hnone x hx]
    cases hdev : devices.isEmpty with
    | true => simp [selectPhysicalDevice, hdev]
    | false => simp [selectPhysicalDevice, hdev, h1, h2]

/-- Witness for C4: a device with no compute queue and no swapchain
extension is unsuitable, and selection over it fails with
`InitializationError`. -/
theorem selectPhysicalDevice_spec_witness :
    selectPhysicalDevice [⟨[⟨false⟩], [], VkPhysicalDeviceType.integratedGpu⟩] =
      Except.error VkError.initializationError :=
  (selectPhysicalDevice_spec
    [⟨[⟨false⟩], [], VkPhysicalDeviceType.integratedGpu⟩]).2.2
    (by decide)

/-- C5: the built chain's extent is the caller-requested width/height when
the capability-reported current extent carries the `UINT32_MAX` undefined
sentinel, and exactly the capability-reported current extent otherwise. -/
theorem chooseSwapExtent_spec (caps : VkSurfaceCapabilities) (width height : Nat) :
    (caps.currentExtent.width = UINT32_MAX →
      chooseSwapExtent caps width height = ⟨width, height⟩)
  ∧ (caps.currentExtent.width ≠ UINT32_MAX →
      chooseSwapExtent caps width height = caps.currentExtent) := by
  constructor
  · intro h
    simp [chooseSwapExtent, h]
  · intro h
    simp [chooseSwapExtent, h]

/-- Witness for C5: with the sentinel extent the caller's 640x480 wins;
with a defined 800x600 extent the caller's request is ignored. -/
theorem chooseSwapExtent_spec_witness :
    chooseSwapExtent ⟨⟨UINT32_MAX, 0⟩, 2, 3⟩ 640 480 = ⟨640, 480⟩ ∧
    chooseSwapExtent ⟨⟨800, 600⟩, 2, 3⟩ 640 480 = ⟨800, 600⟩ :=
  ⟨(chooseSwapExtent_spec ⟨⟨UINT32_MAX, 0⟩, 2, 3⟩ 640 480).1 (by decide),
   (chooseSwapExtent_spec ⟨⟨800, 600⟩, 2, 3⟩ 640 480).2 (by decide)⟩

/-- C10: swapchain format selection reads element 0 of the surface-format
list before the preferred-format search; its only failure mode is the
out-of-bounds access on an empty list (`none`, never a raised error), and
under the precondition that at least one format is reported the result is
the first preferred entry, falling back to element 0. -/
theorem chooseSwapSurfaceFormat_spec (formats : List VkSurfaceFormat) :
    (chooseSwapSurfaceFormat formats = none ↔ formats = [])
  ∧ (∀ f0 rest, formats = f0 :: rest →
      chooseSwapSurfaceFormat formats =
        some ((formats.find? isPreferredFormat).getD f0)) := by
  constructor
  · cases formats with
    | nil => simp [chooseSwapSurfaceFormat]
    | cons f0 rest =>
      simp only [chooseSwapSurfaceFormat, List.head?]
      constructor
      · intro h
        cases hf : (f0 :: rest).find? isPreferredFormat <;> simp [hf] at h
      · intro h
        cases h
  · intro f0 rest h
    subst h
    simp only [chooseSwapSurfaceFormat, List.head?]
    cases hf : (f0 :: rest).find? isPreferredFormat <;> simp [hf]

/-- Witness for C10: on the empty format list the selection is the
out-of-bounds `none`; on a two-element list whose second entry is the
preferred RGBA8/sRGB pair, that entry is selected. -/
theorem chooseSwapSurfaceFormat_spec_witness :
    chooseSwapSurfaceFormat [] = none ∧
    chooseSwapSurfaceFormat
      [⟨VkFormat.otherFormat 44, VkColorSpace.srgbNonlinear⟩,
       ⟨VkFormat.r8g8b8a8Unorm, VkColorSpace.srgbNonlinear⟩] =
      some ⟨VkFormat.r8g8b8a8Unorm, VkColorSpace.srgbNonlinear⟩ :=
  ⟨(chooseSwapSurfaceFormat_spec []).1.mpr rfl,
   (chooseSwapSurfaceFormat_spec
      [⟨VkFormat.otherFormat 44, VkColorSpace.srgbNonlinear⟩,
       ⟨VkFormat.r8g8b8a8Unorm, VkColorSpace.srgbNonlinear⟩]).2
      ⟨VkFormat.otherFormat 44, VkColorSpace.srgbNonlinear⟩
      [⟨VkFormat.r8g8b8a8Unorm, VkColorSpace.srgbNonlinear⟩] rfl⟩

/-- C6: `presentFrame` returns `false` immediately with no further work (no
call trace at all: no fence wait, acquisition, recording, submission or
present) when the window has received a close request; otherwise, when the
submit succeeds, it returns `true`. -/
theorem presentFrame_close_spec (env : PresentEnv) :
    (env.closeRequested = true →
      presentFrameResult env = Except.ok false ∧ presentFrameTrace env = [])
  ∧ (env.closeRequested = false → env.submitOk = true →
      presentFrameResult env = Except.ok true) := by
  constructor
  · intro h
    exact ⟨by simp [presentFrameResult, h], by simp [presentFrameTrace, h]⟩
  · intro h hs
    simp [presentFrameResult, h, hs]

/-- Witness for C6: with a close request the call returns `false` and does
nothing; without one and with a successful submit it returns `true`. -/
theorem presentFrame_close_spec_witness :
    (presentFrameResult ⟨true, false, false⟩ = Except.ok false ∧
     presentFrameTrace ⟨true, false, false⟩ = []) ∧
    presentFrameResult ⟨false, true, false⟩ = Except.ok true :=
  ⟨(presentFrame_close_spec ⟨true, false, false⟩).1 rfl,
   (presentFrame_close_spec ⟨false, true, false⟩).2 rfl rfl⟩

/-- C2 counterexample: in a full `presentFrame` execution the acquire call
carries the `UINT64_MAX` "wait indefinitely" sentinel — not a finite
bound — and even in an environment where the acquire wait has exceeded any
bound (`acquireTimedOut = true`) the call succeeds with `ok true`; no
`TimeoutError` is ever produced. -/
theorem presentFrame_acquire_unbounded_cex :
    presentFrameTrace ⟨false, true, true⟩ =
      [DisplayAction.pollEvents, DisplayAction.waitFence, DisplayAction.resetFence,
       DisplayAction.acquireImage UINT64_MAX, DisplayAction.recordCommands,
       DisplayAction.submitQueue, DisplayAction.presentImage] ∧
    presentFrameResult ⟨false, true, true⟩ = Except.ok true :=
  ⟨rfl, rfl⟩

/-- C2 amended: when the window is not closed, the acquire step of
`presentFrame` uses the unbounded `UINT64_MAX` timeout sentinel (it is the
only acquire in the trace), the result is never `TimeoutError`, and the
result does not depend on whether the acquire wait ran past any bound (the
code discards the acquire result). -/
theorem presentFrame_acquire_unbounded (env : PresentEnv)
    (h : env.closeRequested = false) :
    DisplayAction.acquireImage UINT64_MAX ∈ presentFrameTrace env
  ∧ (∀ t, DisplayAction.acquireImage t ∈ presentFrameTrace env → t = UINT64_MAX)
  ∧ presentFrameResult env ≠ Except.error VkError.timeoutError
  ∧ (∀ b, presentFrameResult (PresentEnv.mk env.closeRequested env.submitOk b) =
      presentFrameResult env) := by
  rcases env with ⟨c, s, a⟩
  simp only at h
  subst h
  refine ⟨?_, ?_, ?_, ?_⟩
  · cases s <;> simp [presentFrameTrace]
  · intro t ht
    cases s <;> simp [presentFrameTrace] at ht <;> exact ht
  · cases s <;> simp [presentFrameResult]
  · intro b
    cases s <;> rfl

/-- Witness for C2's amended statement: a successful, non-closed call
contains the unbounded acquire. -/
theorem presentFrame_acquire_unbounded_witness :
    DisplayAction.acquireImage UINT64_MAX ∈ presentFrameTrace ⟨false, true, false⟩ :=
  (presentFrame_acquire_unbounded ⟨false, true, false⟩ rfl).1

example : checkFenceGuard FenceState.idle [DisplayAction.acquireImage 0] = false := rfl

/-- Helper for C8: one `presentFrame` call takes the fence automaton from
`idle` back to `idle` without any violation, whatever the environment. -/
theorem checkFenceGuard_presentFrame_append (env : PresentEnv)
    (t : List DisplayAction) :
    checkFenceGuard FenceState.idle (presentFrameTrace env ++ t) =
    checkFenceGuard FenceState.idle t := by
  rcases env with ⟨c, s, a⟩
  cases c <;> cases s <;> rfl

/-- C8: over every run of the presentation path (any sequence of
`presentFrame` environments), the fence automaton accepts: an image
acquisition only ever begins after the in-flight fence has been observed
signaled (`waitFence` returned) and reset since the previous acquisition,
so no second acquisition starts with that fence still outstanding. -/
theorem presentLoop_single_frame_in_flight (envs : List PresentEnv) :
    checkFenceGuard FenceState.idle (presentLoopTrace envs) = true := by
  induction envs with
  | nil => rfl
  | cons env rest ih =>
    show checkFenceGuard FenceState.idle
      (presentFrameTrace env ++ presentLoopTrace rest) = true
    rw [checkFenceGuard_presentFrame_append]
    exact ih

/-- C7 counterexample: on a fully initialized context the first `cleanup`
call destroys command pool, device, debug messenger and instance, yet
leaves all handle fields set; the second call therefore issues the same
destroy calls again (in particular it destroys the already-destroyed
command pool), so `cleanup` is not idempotent. -/
theorem cleanup_not_idempotent_cex :
    cleanupActions (cleanupState (VulkanContextState.mk true true true true true)) =
      [CleanupAction.destroyCommandPool, CleanupAction.destroyDevice,
       CleanupAction.destroyDebugMessenger, CleanupAction.destroyInstance] ∧
    CleanupAction.destroyCommandPool ∈
      cleanupActions (VulkanContextState.mk true true true true true) := by
  exact ⟨rfl, by decide⟩

/-- C7 amended: `cleanup` destroys (at most) command pool, logical device,
diagnostic hook and instance in that order, each destroy only for a
non-null handle (so it is safe on a partially initialized context), but it
never resets the handle fields, so a second call repeats exactly the
destroy calls of the first instead of performing none. -/
theorem cleanup_order_and_partial_safe (s : VulkanContextState) :
    cleanupState s = s
  ∧ (cleanupActions s).Sublist
      [CleanupAction.destroyCommandPool, CleanupAction.destroyDevice,
       CleanupAction.destroyDebugMessenger, CleanupAction.destroyInstance]
  ∧ (CleanupAction.destroyCommandPool ∈ cleanupActions s →
      s.commandPoolH = true ∧ s.deviceH = true)
  ∧ (CleanupAction.destroyDevice ∈ cleanupActions s → s.deviceH = true)
  ∧ (CleanupAction.destroyDebugMessenger ∈ cleanupActions s →
      s.debugMessengerH = true ∧ s.instanceH = true)
  ∧ (CleanupAction.destroyInstance ∈ cleanupActions s → s.instanceH = true)
  ∧ cleanupActions (cleanupState s) = cleanupActions s := by
  rcases s with ⟨i, d, p, m, f⟩
  cases i <;> cases d <;> cases p <;> cases m <;> cases f <;>
    exact ⟨rfl, by decide, by decide, by decide, by decide, by decide, rfl⟩

/-- Witness for C7's amended statement: on a context whose device is null
but whose instance is live, the destroy-instance call implies the instance
handle was non-null. -/
theorem cleanup_order_and_partial_safe_witness :
    VulkanContextState.instanceH
      (VulkanContextState.mk true false false false false) = true :=
  (cleanup_order_and_partial_safe
    (VulkanContextState.mk true false false false false)).2.2.2.2.2.1
    (by decide)

/-- C3 counterexample: calling `processFrame` on a pipeline whose `init`
has not completed raises no error at all — the error channel is `none`,
not `SynchronizationViolation`. -/
theorem processFrame_uninit_no_error_cex :
    (processFrame ⟨false⟩ (constImage 1) (constImage 0) 16).2.2 = none := rfl

/-- C3 amended: `processFrame` performs no configured-state check: in every
pipeline state (initialized or not) it performs no work and raises no
error, returning the state, the untouched output image, and an empty error
channel. -/
theorem processFrame_no_state_check (st : ComputeState) (input output : Image)
    (blockSize : Nat) :
    processFrame st input output blockSize = (st, output, none) := rfl

/-- C1: evaluation at the failing input: with a constant-1 input image, a
constant-0 output image and block size 1, the stub `processFrame` leaves
output pixel `(0,0)` at `0`, whereas the documented kernel effect demands
the input color at the tile origin, `1`. -/
theorem processFrame_stub_not_pixelation :
    ((processFrame ⟨true⟩ (constImage 1) (constImage 0) 1).2.1.pix 0 0 = 0)
  ∧ pixelateSpec (constImage 1) 1 0 0 = 1 :=
  ⟨rfl, rfl⟩

/-- Length of one generated row: 4 bytes per remaining pixel. -/
theorem rowBytes_length (w h y : Nat) :
    ∀ (rem x0 : Nat), (rowBytes w h y rem x0).length = rem * 4 := by
  intro rem
  induction rem with
  | zero => intro x0; rfl
  | succ n ih =>
    intro x0
    simp only [rowBytes, List.length_append, pixelBytes, List.length_cons,
      List.length_nil, ih]
    omega

/-- Indexing into one generated row: byte `c` of the pixel `x` places after
the start column `x0` is byte `c` of `pixelBytes` at column `x0 + x`. -/
theorem rowBytes_get (w h y : Nat) :
    ∀ (rem x0 x c : Nat), x < rem → c < 4 →
      (rowBytes w h y rem x0)[x * 4 + c]? = (pixelBytes w h (x0 + x) y)[c]? := by
  intro rem
  induction rem with
  | zero => intro x0 x c hx _; omega
  | succ n ih =>
    intro x0 x c hx hc
    cases x with
    | zero =>
      rw [rowBytes, List.getElem?_append_left (by simp [pixelBytes]; omega)]
      simp
    | succ x' =>
      rw [rowBytes,
        List.getElem?_append_right (by simp [pixelBytes]; omega)]
      have harith : (x' + 1) * 4 + c - (pixelBytes w h x0 y).length =
          x' * 4 + c := by
        simp [pixelBytes]
        omega
      rw [harith, ih (x0 + 1) x' c (by omega) hc]
      have : x0 + (x' + 1) = x0 + 1 + x' := by omega
      rw [this]

/-- Length of the generated frame data: `w * 4` bytes per remaining row. -/
theorem frameBytes_length (w h : Nat) :
    ∀ (rem y0 : Nat), (frameBytes w h rem y0).length = rem * (w * 4) := by
  intro rem
  induction rem with
  | zero => intro y0; simp [frameBytes]
  | succ n ih =>
    intro y0
    simp only [frameBytes, List.length_append, rowBytes_length, ih]
    ring

/-- Indexing into the generated frame data: offset `j` inside the row `y`
places after the start row `y0` lands in `rowBytes` for row `y0 + y`. -/
theorem frameBytes_get (w h : Nat) :
    ∀ (rem y0 y j : Nat), y < rem → j < w * 4 →
      (frameBytes w h rem y0)[y * (w * 4) + j]? = (rowBytes w h (y0 + y) w 0)[j]? := by
  intro rem
  induction rem with
  | zero => intro y0 y j hy _; omega
  | succ n ih =>
    intro y0 y j hy hj
    cases y with
    | zero =>
      rw [frameBytes, List.getElem?_append_left (by rw [rowBytes_length]; omega)]
      simp
    | succ y' =>
      have hsplit : (y' + 1) * (w * 4) = w * 4 + y' * (w * 4) := by ring
      rw [frameBytes,
        List.getElem?_append_right (by rw [rowBytes_length, hsplit]; omega)]
      have harith : (y' + 1) * (w * 4) + j - (rowBytes w h y0 w 0).length =
          y' * (w * 4) + j := by
        rw [rowBytes_length, hsplit]
        omega
      rw [harith, ih (y0 + 1) y' j (by omega) hj]
      have : y0 + (y' + 1) = y0 + 1 + y' := by omega
      rw [this]

/-- C9 counterexample: at configured dimensions 67108864x1 (a defined
execution: the pixel count does not wrap), the byte the program writes for
pixel `(67108863, 0)` is `((67108863*255) mod 2^32) / 67108864 = 62`,
because `x * 255` wraps in 32-bit arithmetic, while the claim's formula
`(x*255)/width` demands `254`. -/
theorem grabFrame_wrap_cex :
    grabFrame (FrameGrabber.mk 67108864 1 0) =
      some (true, grabbedFrame (FrameGrabber.mk 67108864 1 0),
        FrameGrabber.mk 67108864 1 1)
  ∧ (grabbedFrame (FrameGrabber.mk 67108864 1 0)).data[(0 * 67108864 + 67108863) * 4]? =
      some 62
  ∧ 67108863 * 255 / 67108864 = 254 := by
  refine ⟨?_, ?_, by norm_num⟩
  · have hub : grabFrameUB (FrameGrabber.mk 67108864 1 0) = false := by decide
    simp [grabFrame, hub, U32]
  · have hidx : (0 * 67108864 + 67108863) * 4 =
        0 * (67108864 * 4) + (67108863 * 4 + 0) := by norm_num
    have hdata : (grabbedFrame (FrameGrabber.mk 67108864 1 0)).data =
        frameBytes 67108864 1 1 0 := rfl
    rw [hdata, hidx,
      frameBytes_get 67108864 1 1 0 0 (67108863 * 4 + 0) (by norm_num) (by norm_num),
      Nat.zero_add,
      rowBytes_get 67108864 1 0 67108864 0 67108863 0 (by norm_num) (by norm_num),
      Nat.zero_add]
    norm_num [pixelBytes, U32]

/-- C9 (amended): on every defined execution with at least one pixel
(`width*height` below 2^32, so the resized buffer holds exactly what the
loops write, and `width+height` below 2^32, so the `b`-channel divisor does
not wrap to zero), `grabFrame` returns `true` (end-of-stream is never
signaled), sets the output frame's width and height to the configured
dimensions and its stride to `width*4 mod 2^32` (equal to `width*4` when
that product does not wrap), fills exactly `width*height*4` bytes, and
writes at each pixel `(x, y)` the gradient bytes computed in wrapping
32-bit arithmetic — which agree with the claimed formulas
`r = (x*255)/width`, `g = (y*255)/height`,
`b = ((x+y)*255)/(width+height)` exactly when the respective products stay
below 2^32 — and `a = 255`. -/
theorem grabFrame_spec (g : FrameGrabber) (x y : Nat)
    (hx : x < g.width) (hy : y < g.height)
    (hwh : g.width * g.height < U32) (hsum : g.width + g.height < U32) :
    grabFrame g = some (true, grabbedFrame g,
      FrameGrabber.mk g.width g.height ((g.frameCount + 1) % U32))
  ∧ (grabbedFrame g).width = g.width
  ∧ (grabbedFrame g).height = g.height
  ∧ (grabbedFrame g).stride = g.width * 4 % U32
  ∧ (g.width * 4 < U32 → (grabbedFrame g).stride = g.width * 4)
  ∧ (grabbedFrame g).data.length = g.width * g.height * 4
  ∧ (grabbedFrame g).data[(y * g.width + x) * 4]? =
      some (x * 255 % U32 / g.width % 256)
  ∧ (grabbedFrame g).data[(y * g.width + x) * 4 + 1]? =
      some (y * 255 % U32 / g.height % 256)
  ∧ (grabbedFrame g).data[(y * g.width + x) * 4 + 2]? =
      some ((x + y) % U32 * 255 % U32 / ((g.width + g.height) % U32) % 256)
  ∧ (grabbedFrame g).data[(y * g.width + x) * 4 + 3]? = some 255
  ∧ (x * 255 < U32 →
      (grabbedFrame g).data[(y * g.width + x) * 4]? = some (x * 255 / g.width))
  ∧ (y * 255 < U32 →
      (grabbedFrame g).data[(y * g.width + x) * 4 + 1]? =
        some (y * 255 / g.height))
  ∧ ((x + y) * 255 < U32 →
      (grabbedFrame g).data[(y * g.width + x) * 4 + 2]? =
        some ((x + y) * 255 / (g.width + g.height))) := by
  have hw : 0 < g.width := Nat.lt_of_le_of_lt (Nat.zero_le x) hx
  have hh : 0 < g.height := Nat.lt_of_le_of_lt (Nat.zero_le y) hy
  have hdata : (grabbedFrame g).data = frameBytes g.width g.height g.height 0 := rfl
  have hpix : ∀ c, c < 4 →
      (grabbedFrame g).data[(y * g.width + x) * 4 + c]? =
        (pixelBytes g.width g.height x y)[c]? := by
    intro c hc
    have hidx : (y * g.width + x) * 4 + c = y * (g.width * 4) + (x * 4 + c) := by ring
    rw [hdata, hidx,
      frameBytes_get g.width g.height g.height 0 y (x * 4 + c) hy (by omega),
      Nat.zero_add,
      rowBytes_get g.width g.height y g.width 0 x c hx hc,
      Nat.zero_add]
  have hpix0 : (grabbedFrame g).data[(y * g.width + x) * 4]? =
      (pixelBytes g.width g.height x y)[0]? := by
    have h0 := hpix 0 (by omega)
    rw [Nat.add_zero] at h0
    exact h0
  refine ⟨?_, rfl, rfl, rfl, ?_, ?_, ?_, ?_, ?_, ?_, ?_, ?_, ?_⟩
  · have hub : grabFrameUB g = false := by
      have h1 : ¬ U32 ≤ g.width * g.height := Nat.not_le.mpr hwh
      have h2 : (g.width + g.height) % U32 = g.width + g.height :=
        Nat.mod_eq_of_lt hsum
      have h3 : ¬ (g.width + g.height) % U32 = 0 := by omega
      simp [grabFrameUB, h1, h3]
    simp [grabFrame, hub]
  · intro h4
    show g.width * 4 % U32 = g.width * 4
    exact Nat.mod_eq_of_lt h4
  · rw [hdata, frameBytes_length]
    ring
  · rw [hpix0]
    simp [pixelBytes]
  · rw [hpix 1 (by omega)]
    simp [pixelBytes]
  · rw [hpix 2 (by omega)]
    simp [pixelBytes]
  · rw [hpix 3 (by omega)]
    simp [pixelBytes]
  · intro hr32
    have e1 : x * 255 % U32 = x * 255 := Nat.mod_eq_of_lt hr32
    have e2 : x * 255 / g.width < 256 := by
      rw [Nat.div_lt_iff_lt_mul hw]
      omega
    rw [hpix0]
    simp [pixelBytes, e1, Nat.mod_eq_of_lt e2]
  · intro hg32
    have e1 : y * 255 % U32 = y * 255 := Nat.mod_eq_of_lt hg32
    have e2 : y * 255 / g.height < 256 := by
      rw [Nat.div_lt_iff_lt_mul hh]
      omega
    rw [hpix 1 (by omega)]
    simp [pixelBytes, e1, Nat.mod_eq_of_lt e2]
  · intro hb32
    have e1 : (x + y) % U32 = x + y := Nat.mod_eq_of_lt (by omega)
    have e2 : (x + y) * 255 % U32 = (x + y) * 255 := Nat.mod_eq_of_lt hb32
    have e3 : (g.width + g.height) % U32 = g.width + g.height :=
      Nat.mod_eq_of_lt hsum
    have e4 : (x + y) * 255 / (g.width + g.height) < 256 := by
      rw [Nat.div_lt_iff_lt_mul (by omega)]
      omega
    rw [hpix 2 (by omega)]
    simp [pixelBytes, e1, e2, e3, Nat.mod_eq_of_lt e4]

/-- Witness for C9's amended statement: a 2x2 grabber (all products far
below 2^32) at pixel (1, 1): the call returns and the red byte is the
wrapped gradient value. -/
theorem grabFrame_spec_witness :
    grabFrame (FrameGrabber.mk 2 2 0) =
      some (true, grabbedFrame (FrameGrabber.mk 2 2 0), FrameGrabber.mk 2 2 1)
  ∧ (grabbedFrame (FrameGrabber.mk 2 2 0)).data[(1 * 2 + 1) * 4]? =
      some (1 * 255 % U32 / 2 % 256) :=
  ⟨(grabFrame_spec (FrameGrabber.mk 2 2 0) 1 1
      (by decide) (by decide) (by decide) (by decide)).1,
   (grabFrame_spec (FrameGrabber.mk 2 2 0) 1 1
      (by decide) (by decide) (by decide) (by decide)).2.2.2.2.2.2.1⟩
